import Mathlib

/-!
A shallow embedding of the CI review script `.github/scripts/ai_review.py`
(repository ChatRaw).

Python strings are modelled as Lean `String`s viewed through their list of
code points (`String.data`); Python's `len`, `[:n]`, `.strip()` and
`.split("\n")` are defined over that list so that the code-point semantics
is preserved and every definition evaluates by kernel reduction.  The
external world is modelled explicitly: a subprocess invocation is a pair of
exit code and combined stdout+stderr text, each provider HTTP call is an
oracle mapping the prompt to either an exception or a response value, and
the filesystem is the pair of contents of the two files the script touches.
-/

namespace AiReview

/-- Python `str.strip()` on a code-point list: drop whitespace from both ends. -/
def stripChars (l : List Char) : List Char :=
  ((l.dropWhile Char.isWhitespace).reverse.dropWhile Char.isWhitespace).reverse

/-- Python `s.strip()`. -/
def pyStrip (s : String) : String := String.mk (stripChars s.data)

/-- Python `s.split("\n")` on the code-point list: `"".split("\n") = [""]`,
and every newline separates two (possibly empty) fields. -/
def splitNlChars : List Char → List (List Char)
  | [] => [[]]
  | c :: rest =>
    if c = '\n' then [] :: splitNlChars rest
    else
      match splitNlChars rest with
      | [] => [[c]]
      | h :: t => (c :: h) :: t

/-- Python `s.split("\n")`. -/
def pySplitNl (s : String) : List String := (splitNlChars s.data).map String.mk

/-- Python `s[:n]`: the first `n` code points. -/
def pyTake (s : String) (n : Nat) : String := String.mk (s.data.take n)

/-- Python `"\n".join`-style joining used via `chr(10).join(...)`. -/
def joinWithNl : List String → String
  | [] => ""
  | [f] => f
  | f :: rest => f ++ "\n" ++ joinWithNl rest

/-- Truthiness of `os.environ.get(...)`: an unset variable (`none`) and the
empty string are both falsy. -/
def truthy (v : Option String) : Bool := v.getD "" != ""

/-- `MAX_DIFF_CHARS = 15000` (ai_review.py line 12). -/
def MAX_DIFF_CHARS : Nat := 15000

/-- The truncation notice appended when the diff exceeds the cap
(ai_review.py line 55), with `MAX_DIFF_CHARS` interpolated by the f-string. -/
def truncationNotice : String :=
  "\n\n...[diff 已截断，总计超出 " ++ toString MAX_DIFF_CHARS ++ " 字符]..."

/-- The fixed review rubric `REVIEW_DIMENSIONS` (ai_review.py lines 14-20). -/
def REVIEW_DIMENSIONS : String :=
  "请从以下维度审查代码变更，给出简明扼要的中文反馈：\n\n" ++
  "1. **安全**：是否存在潜在的安全漏洞（如注入、敏感信息泄露）\n" ++
  "2. **Bug**：是否可能引入运行时错误或逻辑问题\n" ++
  "3. **性能**：是否存在明显性能问题\n" ++
  "4. **可读性**：命名、注释、结构是否清晰\n" ++
  "5. **架构**：是否符合项目既有设计，是否过度设计或设计不足"

/-- The result of `run_cmd`: the subprocess return code and the concatenated
stdout+stderr text. -/
structure CmdResult where
  rc : Int
  out : String
deriving DecidableEq

/-- The environment the script reads (each `os.environ.get`): `none` means
the variable is unset. -/
structure Env where
  GITHUB_STEP_SUMMARY : Option String
  GITHUB_BASE_REF : Option String
  OPENAI_API_KEY : Option String
  OPENAI_BASE_URL : Option String
  OPENAI_MODEL : Option String
  GEMINI_API_KEY : Option String
  GEMINI_MODEL_FALLBACK : Option String
deriving DecidableEq

/-- `base_ref = f"origin/{GITHUB_BASE_REF}"` with default `"main"`. -/
def base_ref (env : Env) : String := "origin/" ++ env.GITHUB_BASE_REF.getD "main"

/-- `os.environ.get("GEMINI_MODEL_FALLBACK", "gemini-2.5-flash")`. -/
def gemini_model (env : Env) : String :=
  env.GEMINI_MODEL_FALLBACK.getD "gemini-2.5-flash"

/-- `os.environ.get("OPENAI_BASE_URL") or "https://api.openai.com/v1"`. -/
def openai_base_url (env : Env) : String :=
  if !truthy env.OPENAI_BASE_URL then "https://api.openai.com/v1"
  else env.OPENAI_BASE_URL.getD ""

/-- `os.environ.get("OPENAI_MODEL") or "gpt-4o-mini"`. -/
def openai_model (env : Env) : String :=
  if !truthy env.OPENAI_MODEL then "gpt-4o-mini" else env.OPENAI_MODEL.getD ""

/-- The file-name post-processing in `get_py_diff` (line 45):
`[f.strip() for f in out.strip().split("\n") if f.strip()]`. -/
def stripSplitFiles (out : String) : List String :=
  ((pySplitNl (pyStrip out)).map pyStrip).filter (fun f => f ≠ "")

/-- `get_py_diff` (ai_review.py lines 35-57), as a function of the results of
its two `git diff` subprocess invocations (`--name-only` first, then the full
diff).  The second command is only reached in the source when the first
succeeds with a non-empty file list; passing its result as a parameter is
harmless for the other branches. -/
def get_py_diff (nameOnlyCmd diffCmd : CmdResult) : List String × String :=
  if nameOnlyCmd.rc ≠ 0 then ([], "")
  else
    let files := stripSplitFiles nameOnlyCmd.out
    if files = [] then ([], "")
    else
      let diff0 := if diffCmd.rc = 0 then diffCmd.out else ""
      let diff :=
        if diff0.length > MAX_DIFF_CHARS then
          pyTake diff0 MAX_DIFF_CHARS ++ truncationNotice
        else diff0
      (files, diff)

/-- `build_prompt` (ai_review.py lines 60-74). -/
def build_prompt (files : List String) (diff : String) : String :=
  "你是一位资深代码审查专家。请对以下 PR 中的 Python 代码变更进行审查。\n\n" ++
  "## 修改的文件\n" ++
  joinWithNl (files.map (fun f => "- " ++ f)) ++
  "\n\n## Diff\n```\n" ++ diff ++ "\n```\n\n" ++
  REVIEW_DIMENSIONS ++
  "\n\n请直接输出审查结论，使用 Markdown 格式。"

/-- One `part` of a Gemini candidate content: its optional `text` attribute. -/
structure GeminiPart where
  text : Option String
deriving DecidableEq

/-- A Gemini candidate `content` with its list of parts. -/
structure GeminiContent where
  parts : List GeminiPart
deriving DecidableEq

/-- A Gemini response candidate; `content` is `none` when the attribute is
absent or falsy. -/
structure GeminiCandidate where
  content : Option GeminiContent
deriving DecidableEq

/-- A (truthy) Gemini response: optional top-level `text` plus candidates. -/
structure GeminiResponse where
  text : Option String
  candidates : List GeminiCandidate
deriving DecidableEq

/-- The `for p in c.content.parts` loop (ai_review.py lines 96-99): return the
stripped text of the first part whose `text` is present and truthy. -/
def firstTruthyPartText : List GeminiPart → Option String
  | [] => none
  | p :: rest =>
    match p.text with
    | some t => if t != "" then some (pyStrip t) else firstTruthyPartText rest
    | none => firstTruthyPartText rest

/-- The candidate fallback of `call_gemini` (lines 93-99): look only at the
first candidate, and only when its `content` is truthy. -/
def geminiCandidatesText (r : GeminiResponse) : Option String :=
  match r.candidates with
  | [] => none
  | c :: _ =>
    match c.content with
    | some content => firstTruthyPartText content.parts
    | none => none

/-- Extraction from a truthy Gemini response (lines 89-99): prefer the
top-level `text` when truthy, stripped; otherwise fall back to candidates. -/
def geminiExtract (r : GeminiResponse) : Option String :=
  match r.text with
  | some t => if t != "" then some (pyStrip t) else geminiCandidatesText r
  | none => geminiCandidatesText r

/-- `call_gemini` (ai_review.py lines 77-103).  The oracle models everything
inside the `try` block: `.error ()` is any raised exception (import failure,
network error, API error); `.ok none` is a falsy response object; `.ok (some r)`
is a truthy response.  A missing or empty `GEMINI_API_KEY` short-circuits to
`none` before the call. -/
def call_gemini (env : Env)
    (oracle : String → Except Unit (Option GeminiResponse)) (prompt : String) :
    Option String :=
  if !truthy env.GEMINI_API_KEY then none
  else
    match oracle prompt with
    | .error _ => none
    | .ok none => none
    | .ok (some r) => geminiExtract r

/-- `call_openai_compatible` (ai_review.py lines 106-126).  The oracle models
the `try` block: `.error ()` is any raised exception; `.ok cs` is the list
`response.choices`, each carrying `message.content` (`none` when the content
is `None`, in which case `.strip()` raises `AttributeError` inside the `try`
and the adapter returns `None`). -/
def call_openai_compatible (env : Env)
    (oracle : String → Except Unit (List (Option String))) (prompt : String) :
    Option String :=
  if !truthy env.OPENAI_API_KEY then none
  else
    match oracle prompt with
    | .error _ => none
    | .ok [] => none
    | .ok (none :: _) => none
    | .ok (some content :: _) => some (pyStrip content)

/-- The two files `write_result` can touch: the local artifact
`ai_review_result.txt` and the step-summary file named by
`GITHUB_STEP_SUMMARY`.  `none` means the file does not exist; appending to a
missing file creates it. -/
structure FS where
  artifact : Option String
  stepSummaryFile : Option String
deriving DecidableEq

/-- The header written before the result in the step summary (line 136). -/
def summaryHeader : String := "## AI 代码审查\n\n"

/-- `write_result` (ai_review.py lines 129-138): overwrite the artifact with
the result; when `GITHUB_STEP_SUMMARY` is set and non-empty, append the
header, the result and a newline to that file. -/
def write_result (env : Env) (result : String) (fs : FS) : FS :=
  let fs1 : FS := { fs with artifact := some result }
  if !truthy env.GITHUB_STEP_SUMMARY then fs1
  else
    { fs1 with
      stepSummaryFile :=
        some (fs.stepSummaryFile.getD "" ++ (summaryHeader ++ result ++ "\n")) }

/-- The fixed "no Python changes" message (ai_review.py line 144). -/
def noChangesMsg : String := "本次 PR 无 Python 文件变更，跳过 AI 审查。"

/-- The fixed configuration-hint message (ai_review.py lines 155-157). -/
def configHintMsg : String :=
  "⚠️ AI 审查未执行：请配置 `OPENAI_API_KEY`（DeepSeek 等）或 `GEMINI_API_KEY`。"

/-- One run's external world: the two git subprocess results and the two
provider oracles. -/
structure World where
  nameOnlyCmd : CmdResult
  diffCmd : CmdResult
  openaiOracle : String → Except Unit (List (Option String))
  geminiOracle : String → Except Unit (Option GeminiResponse)

/-- The observable outcome of `main`: exit code, the result string, the
filesystem after `write_result`, and which pipeline stages ran. -/
structure MainRun where
  exitCode : Int
  result : String
  fsOut : FS
  promptBuilt : Bool
  openaiInvoked : Bool
  geminiInvoked : Bool

/-- `main` (ai_review.py lines 141-160).  `geminiInvoked` records that
`call_gemini` only runs when `call_openai_compatible` returned `None`. -/
def main (env : Env) (w : World) (fs : FS) : MainRun :=
  let fd := get_py_diff w.nameOnlyCmd w.diffCmd
  if fd.1 = [] then
    { exitCode := 0, result := noChangesMsg,
      fsOut := write_result env noChangesMsg fs,
      promptBuilt := false, openaiInvoked := false, geminiInvoked := false }
  else
    let prompt := build_prompt fd.1 fd.2
    let rA := call_openai_compatible env w.openaiOracle prompt
    let result1 : Option String :=
      match rA with
      | some t => some t
      | none => call_gemini env w.geminiOracle prompt
    let result :=
      match result1 with
      | some t => t
      | none => configHintMsg
    { exitCode := 0, result := result, fsOut := write_result env result fs,
      promptBuilt := true, openaiInvoked := true, geminiInvoked := rA.isNone }

/-- "The needle occurs somewhere inside the haystack", for stating where the
truncation notice can appear. -/
def occursIn (needle haystack : String) : Prop :=
  ∃ a b : String, haystack = a ++ needle ++ b

/-! Concrete environments, worlds and filesystems used by the witnesses. -/

/-- An empty filesystem: neither file exists yet. -/
def fsEmpty : FS := ⟨none, none⟩

/-- An environment with no variable set. -/
def envNoKeys : Env := ⟨none, none, none, none, none, none, none⟩

/-- An environment with both provider keys set and no step summary. -/
def envBothKeys : Env :=
  ⟨none, some "main", some "sk-test", none, none, some "gm-test", none⟩

/-- An environment whose only setting is the step-summary path. -/
def envWithSummary : Env := ⟨some "summary.md", none, none, none, none, none, none⟩

/-- A diff one code point over the cap. -/
def bigDiff : String := String.mk (List.replicate (MAX_DIFF_CHARS + 1) 'a')

/-- A world where the first git command reports one changed file and the
OpenAI-compatible call answers. -/
def worldOpenaiOk : World :=
  ⟨⟨0, "a.py"⟩, ⟨0, "+ x = 1"⟩, fun _ => .ok [some " LGTM "], fun _ => .ok none⟩

/-- A world where the OpenAI-compatible call raises and Gemini answers. -/
def worldGeminiOk : World :=
  ⟨⟨0, "a.py"⟩, ⟨0, "+ x = 1"⟩, fun _ => .error (),
    fun _ => .ok (some ⟨some " 基本没问题 ", []⟩)⟩

/-- A world where both provider calls raise. -/
def worldAllFail : World :=
  ⟨⟨0, "a.py"⟩, ⟨0, "+ x = 1"⟩, fun _ => .error (), fun _ => .error ()⟩

/-- A world where the first git command fails, so no files are collected. -/
def worldNoFiles : World :=
  ⟨⟨1, "fatal: bad revision"⟩, ⟨0, ""⟩, fun _ => .error (), fun _ => .error ()⟩

/-- An always-raising OpenAI-compatible oracle. -/
def oracleErrO : String → Except Unit (List (Option String)) := fun _ => .error ()

/-- An always-raising Gemini oracle. -/
def oracleErrG : String → Except Unit (Option GeminiResponse) := fun _ => .error ()

/-- A succeeding OpenAI-compatible oracle. -/
def oracleOkO : String → Except Unit (List (Option String)) :=
  fun _ => .ok [some " ok "]

/-- A succeeding Gemini oracle. -/
def oracleOkG : String → Except Unit (Option GeminiResponse) :=
  fun _ => .ok (some ⟨some " ok ", []⟩)

/-! Helper lemmas shared by several claim proofs. -/

/-- The length of a Python slice `s[:n]`. -/
theorem pyTake_length (s : String) (n : Nat) :
    (pyTake s n).length = min n s.length := by
  show (s.data.take n).length = min n s.data.length
  exact List.length_take _ _

/-- The over-cap diff has exactly `MAX_DIFF_CHARS + 1` code points. -/
theorem bigDiff_length : bigDiff.length = MAX_DIFF_CHARS + 1 := by
  show (List.replicate (MAX_DIFF_CHARS + 1) 'a').length = MAX_DIFF_CHARS + 1
  exact List.length_replicate _ _

/-- `write_result` always stores the result in the artifact file. -/
theorem write_result_sets_artifact (env : Env) (result : String) (fs : FS) :
    (write_result env result fs).artifact = some result := by
  simp only [write_result]
  split <;> rfl

/-- On the success path, the diff component of `get_py_diff` is the raw diff
text, truncated exactly when it exceeds the cap. -/
theorem get_py_diff_snd (c1 c2 : CmdResult) (h1 : c1.rc = 0)
    (h2 : stripSplitFiles c1.out ≠ []) (h3 : c2.rc = 0) :
    (get_py_diff c1 c2).2 =
      if MAX_DIFF_CHARS < c2.out.length then
        pyTake c2.out MAX_DIFF_CHARS ++ truncationNotice
      else c2.out := by
  simp [get_py_diff, h1, h2, h3]

/-- The truncation notice does not occur in the three-character diff `"abc"`. -/
theorem notice_not_in_short : ¬ occursIn truncationNotice "abc" := by
  rintro ⟨a, b, h⟩
  have hl := congrArg String.length h
  rw [String.length_append, String.length_append] at hl
  have hs : ("abc" : String).length = 3 := by decide
  have hn : truncationNotice.length = 32 := by decide
  omega

/-! The claim theorems. -/

/-- Claim C2: when the first git command succeeds with a non-empty file list
and the diff command succeeds with a diff longer than `MAX_DIFF_CHARS`, the
stored diff is exactly the cap-length code-point prefix of the original
followed by the fixed truncation notice, so its total length is
`MAX_DIFF_CHARS + truncationNotice.length`; a diff at or below the cap is
returned unmodified. -/
theorem C2_diff_truncation (c1 c2 : CmdResult) (h1 : c1.rc = 0)
    (h2 : stripSplitFiles c1.out ≠ []) (h3 : c2.rc = 0) :
    (MAX_DIFF_CHARS < c2.out.length →
      (get_py_diff c1 c2).2 = pyTake c2.out MAX_DIFF_CHARS ++ truncationNotice ∧
      ((get_py_diff c1 c2).2).length = MAX_DIFF_CHARS + truncationNotice.length) ∧
    (c2.out.length ≤ MAX_DIFF_CHARS → (get_py_diff c1 c2).2 = c2.out) := by
  have hd2 := get_py_diff_snd c1 c2 h1 h2 h3
  constructor
  · intro hgt
    constructor
    · rw [hd2, if_pos hgt]
    · rw [hd2, if_pos hgt, String.length_append, pyTake_length]
      omega
  · intro hle
    rw [hd2, if_neg (by omega)]

/-- Witness for C2 at a concrete 15001-character diff. -/
theorem C2_diff_truncation_witness :
    (get_py_diff ⟨0, "a.py"⟩ ⟨0, bigDiff⟩).2 =
      pyTake bigDiff MAX_DIFF_CHARS ++ truncationNotice ∧
    ((get_py_diff ⟨0, "a.py"⟩ ⟨0, bigDiff⟩).2).length =
      MAX_DIFF_CHARS + truncationNotice.length :=
  (C2_diff_truncation ⟨0, "a.py"⟩ ⟨0, bigDiff⟩ rfl (by decide) rfl).1
    (by rw [bigDiff_length]; omega)

/-- Claim C5 counterexample: when the file-listing command succeeds with one
changed file but the diff-producing command fails, `get_py_diff` returns the
non-empty file list with an empty diff, not the `([], "")` pair the claim
requires. -/
theorem C5_counterexample :
    (⟨1, "fatal: bad object"⟩ : CmdResult).rc ≠ 0 ∧
    get_py_diff ⟨0, "a.py"⟩ ⟨1, "fatal: bad object"⟩ = (["a.py"], "") ∧
    get_py_diff ⟨0, "a.py"⟩ ⟨1, "fatal: bad object"⟩ ≠ (([] : List String), "") := by
  decide

/-- Claim C5 (amended): a failing file-listing command or an empty stripped
file list yields `([], "")`; a failure of the second, diff-producing command
yields the non-empty file list paired with the empty diff string. -/
theorem C5_failure_handling_amended (c1 c2 : CmdResult) :
    (c1.rc ≠ 0 → get_py_diff c1 c2 = ([], "")) ∧
    (stripSplitFiles c1.out = [] → get_py_diff c1 c2 = ([], "")) ∧
    (c1.rc = 0 → stripSplitFiles c1.out ≠ [] → c2.rc ≠ 0 →
      get_py_diff c1 c2 = (stripSplitFiles c1.out, "")) := by
  refine ⟨fun h => ?_, fun h => ?_, fun h1 h2 h3 => ?_⟩
  · simp [get_py_diff, h]
  · by_cases hrc : c1.rc = 0
    · simp [get_py_diff, hrc, h]
    · simp [get_py_diff, hrc]
  · simp [get_py_diff, h1, h2, h3]

/-- Witness for the amended C5 on three concrete command outcomes. -/
theorem C5_failure_handling_amended_witness :
    get_py_diff ⟨1, "fatal: bad revision"⟩ ⟨0, ""⟩ = ([], "") ∧
    get_py_diff ⟨0, " \n "⟩ ⟨0, ""⟩ = ([], "") ∧
    get_py_diff ⟨0, "a.py"⟩ ⟨1, "fatal: bad object"⟩ = (stripSplitFiles "a.py", "") :=
  ⟨(C5_failure_handling_amended ⟨1, "fatal: bad revision"⟩ ⟨0, ""⟩).1 (by decide),
   (C5_failure_handling_amended ⟨0, " \n "⟩ ⟨0, ""⟩).2.1 (by decide),
   (C5_failure_handling_amended ⟨0, "a.py"⟩ ⟨1, "fatal: bad object"⟩).2.2
     rfl (by decide) (by decide)⟩

/-- Claim C7: `write_result` overwrites the artifact file with exactly the
result string, whatever the file held before. -/
theorem C7_artifact_overwrite (env : Env) (result : String) (fs : FS) :
    (write_result env result fs).artifact = some result := by
  simp only [write_result]
  split <;> rfl

/-- Claim C8 counterexample: with a configured summary path, prior content
`"prior"` and result `"body"`, the summary file afterwards holds the prior
content, the header, the result and a terminating newline — not just the
header followed by the result, as the claim describes the appended portion. -/
theorem C8_counterexample :
    (write_result envWithSummary "body" ⟨none, some "prior"⟩).stepSummaryFile =
      some ("prior" ++ summaryHeader ++ "body" ++ "\n") ∧
    (write_result envWithSummary "body" ⟨none, some "prior"⟩).stepSummaryFile ≠
      some ("prior" ++ summaryHeader ++ "body") := by
  decide

/-- Claim C8 (amended): if a summary-log path is configured, `write_result`
only appends: the prior content is preserved unchanged as a prefix and the
appended portion is the fixed header followed by the result and a terminating
newline; if no path is configured, the summary log is not touched. -/
theorem C8_summary_append_amended (env : Env) (result : String) (fs : FS) :
    (truthy env.GITHUB_STEP_SUMMARY = true →
      (write_result env result fs).stepSummaryFile =
        some ((fs.stepSummaryFile.getD "") ++ (summaryHeader ++ result ++ "\n"))) ∧
    (truthy env.GITHUB_STEP_SUMMARY = false →
      (write_result env result fs).stepSummaryFile = fs.stepSummaryFile) := by
  constructor <;> intro h <;> simp [write_result, h]

/-- Witness for the amended C8: one run with a configured summary path and
one without. -/
theorem C8_summary_append_amended_witness :
    (write_result envWithSummary "body" ⟨none, some "prior"⟩).stepSummaryFile =
      some ("prior" ++ (summaryHeader ++ "body" ++ "\n")) ∧
    (write_result envNoKeys "body" ⟨none, some "prior"⟩).stepSummaryFile =
      some "prior" :=
  ⟨(C8_summary_append_amended envWithSummary "body" ⟨none, some "prior"⟩).1 (by decide),
   (C8_summary_append_amended envNoKeys "body" ⟨none, some "prior"⟩).2 (by decide)⟩

/-- Claim C9: `build_prompt` is deterministic — two runs on equal file lists
and equal diff texts produce equal prompt strings.  Purity and totality hold
by construction: the embedding of `build_prompt` is a total function of
exactly its two arguments and of no state. -/
theorem C9_build_prompt_deterministic (files1 files2 : List String)
    (diff1 diff2 : String) (hf : files1 = files2) (hd : diff1 = diff2) :
    build_prompt files1 diff1 = build_prompt files2 diff2 := by
  rw [hf, hd]

/-- Witness for C9 at a concrete file list and diff. -/
theorem C9_build_prompt_deterministic_witness :
    build_prompt ["a.py"] "+ x = 1" = build_prompt ["a.py"] "+ x = 1" :=
  C9_build_prompt_deterministic ["a.py"] ["a.py"] "+ x = 1" "+ x = 1" rfl rfl

/-- Claim C10 counterexample: a successfully collected diff that consists of
the truncation-notice text itself is at most `MAX_DIFF_CHARS` long, yet the
notice occurs in the returned diff — so "the notice appears iff the original
exceeded the cap" fails as stated. -/
theorem C10_counterexample :
    truncationNotice.length ≤ MAX_DIFF_CHARS ∧
    occursIn truncationNotice (get_py_diff ⟨0, "a.py"⟩ ⟨0, truncationNotice⟩).2 := by
  refine ⟨by decide, "", "", ?_⟩
  have h : (get_py_diff ⟨0, "a.py"⟩ ⟨0, truncationNotice⟩).2 = truncationNotice := by
    decide
  rw [h]
  simp

/-- Claim C10 (amended): on the success path, diffs at or below the cap are
returned unchanged with nothing appended; when the cap is exceeded the notice
occurs in the returned diff; and for original diffs that do not themselves
contain the notice text, the notice occurs in the returned diff iff the
original exceeded the cap. -/
theorem C10_identity_below_cap_amended (c1 c2 : CmdResult) (h1 : c1.rc = 0)
    (h2 : stripSplitFiles c1.out ≠ []) (h3 : c2.rc = 0) :
    (c2.out.length ≤ MAX_DIFF_CHARS → (get_py_diff c1 c2).2 = c2.out) ∧
    (MAX_DIFF_CHARS < c2.out.length →
      occursIn truncationNotice (get_py_diff c1 c2).2) ∧
    (¬ occursIn truncationNotice c2.out →
      (occursIn truncationNotice (get_py_diff c1 c2).2 ↔
        MAX_DIFF_CHARS < c2.out.length)) := by
  have hd2 := get_py_diff_snd c1 c2 h1 h2 h3
  refine ⟨fun hle => ?_, fun hgt => ?_, fun hno => ?_⟩
  · rw [hd2, if_neg (by omega)]
  · rw [hd2, if_pos hgt]
    exact ⟨pyTake c2.out MAX_DIFF_CHARS, "", by simp⟩
  · constructor
    · intro hocc
      by_contra hle
      rw [hd2, if_neg hle] at hocc
      exact hno hocc
    · intro hgt
      rw [hd2, if_pos hgt]
      exact ⟨pyTake c2.out MAX_DIFF_CHARS, "", by simp⟩

/-- Witness for the amended C10 at a concrete three-character diff. -/
theorem C10_identity_below_cap_amended_witness :
    ((get_py_diff ⟨0, "a.py"⟩ ⟨0, "abc"⟩).2 = "abc") ∧
    (occursIn truncationNotice (get_py_diff ⟨0, "a.py"⟩ ⟨0, "abc"⟩).2 ↔
      MAX_DIFF_CHARS < ("abc" : String).length) :=
  ⟨(C10_identity_below_cap_amended ⟨0, "a.py"⟩ ⟨0, "abc"⟩ rfl (by decide) rfl).1
     (by decide),
   (C10_identity_below_cap_amended ⟨0, "a.py"⟩ ⟨0, "abc"⟩ rfl (by decide) rfl).2.2
     notice_not_in_short⟩

/-- Claim C1: once a prompt exists (the collected file list is non-empty),
the result is fixed by provider priority: a text from the OpenAI-compatible
adapter is the result verbatim and Gemini is never invoked; if it is absent
and Gemini returns a text, that text is the result; if both are absent, the
result is the fixed configuration-hint message. -/
theorem C1_provider_priority (env : Env) (w : World) (fs : FS)
    (hfiles : (get_py_diff w.nameOnlyCmd w.diffCmd).1 ≠ []) :
    (∀ t, call_openai_compatible env w.openaiOracle
        (build_prompt (get_py_diff w.nameOnlyCmd w.diffCmd).1
          (get_py_diff w.nameOnlyCmd w.diffCmd).2) = some t →
      (main env w fs).result = t ∧ (main env w fs).geminiInvoked = false) ∧
    (call_openai_compatible env w.openaiOracle
        (build_prompt (get_py_diff w.nameOnlyCmd w.diffCmd).1
          (get_py_diff w.nameOnlyCmd w.diffCmd).2) = none →
      ∀ t, call_gemini env w.geminiOracle
          (build_prompt (get_py_diff w.nameOnlyCmd w.diffCmd).1
            (get_py_diff w.nameOnlyCmd w.diffCmd).2) = some t →
        (main env w fs).result = t) ∧
    (call_openai_compatible env w.openaiOracle
        (build_prompt (get_py_diff w.nameOnlyCmd w.diffCmd).1
          (get_py_diff w.nameOnlyCmd w.diffCmd).2) = none →
      call_gemini env w.geminiOracle
          (build_prompt (get_py_diff w.nameOnlyCmd w.diffCmd).1
            (get_py_diff w.nameOnlyCmd w.diffCmd).2) = none →
        (main env w fs).result = configHintMsg) := by
  refine ⟨fun t ht => ⟨?_, ?_⟩, fun hA t hB => ?_, fun hA hB => ?_⟩
  · simp [main, hfiles, ht]
  · simp [main, hfiles, ht]
  · simp [main, hfiles, hA, hB]
  · simp [main, hfiles, hA, hB]

/-- Witness for C1: one run per selection-policy case. -/
theorem C1_provider_priority_witness :
    ((main envBothKeys worldOpenaiOk fsEmpty).result = "LGTM" ∧
      (main envBothKeys worldOpenaiOk fsEmpty).geminiInvoked = false) ∧
    (main envBothKeys worldGeminiOk fsEmpty).result = "基本没问题" ∧
    (main envBothKeys worldAllFail fsEmpty).result = configHintMsg :=
  ⟨(C1_provider_priority envBothKeys worldOpenaiOk fsEmpty (by decide)).1
     "LGTM" (by decide),
   (C1_provider_priority envBothKeys worldGeminiOk fsEmpty (by decide)).2.1
     (by decide) "基本没问题" (by decide),
   (C1_provider_priority envBothKeys worldAllFail fsEmpty (by decide)).2.2
     (by decide) (by decide)⟩

/-- Claim C3: each adapter is a total function into an optional text (it never
raises by construction of the embedding); a missing or empty required API key
yields absent, and an exception raised inside the provider call is converted
to absent. -/
theorem C3_adapters_never_raise (env : Env)
    (ob : String → Except Unit (List (Option String)))
    (gb : String → Except Unit (Option GeminiResponse)) (prompt : String) :
    (env.OPENAI_API_KEY.getD "" = "" →
      call_openai_compatible env ob prompt = none) ∧
    (env.GEMINI_API_KEY.getD "" = "" → call_gemini env gb prompt = none) ∧
    (ob prompt = .error () → call_openai_compatible env ob prompt = none) ∧
    (gb prompt = .error () → call_gemini env gb prompt = none) := by
  refine ⟨fun h => ?_, fun h => ?_, fun h => ?_, fun h => ?_⟩
  · simp [call_openai_compatible, truthy, h]
  · simp [call_gemini, truthy, h]
  · unfold call_openai_compatible
    rw [h]
    split <;> rfl
  · unfold call_gemini
    rw [h]
    split <;> rfl

/-- Witness for C3: missing keys and raising calls, for both adapters. -/
theorem C3_adapters_never_raise_witness :
    call_openai_compatible envNoKeys oracleOkO "p" = none ∧
    call_gemini envNoKeys oracleOkG "p" = none ∧
    call_openai_compatible envBothKeys oracleErrO "p" = none ∧
    call_gemini envBothKeys oracleErrG "p" = none :=
  ⟨(C3_adapters_never_raise envNoKeys oracleOkO oracleOkG "p").1 rfl,
   (C3_adapters_never_raise envNoKeys oracleOkO oracleOkG "p").2.1 rfl,
   (C3_adapters_never_raise envBothKeys oracleErrO oracleErrG "p").2.2.1 rfl,
   (C3_adapters_never_raise envBothKeys oracleErrO oracleErrG "p").2.2.2 rfl⟩

/-- Claim C4: when the change collector returns no files, `main` writes
exactly the fixed "no changes" message and neither builds a prompt nor
invokes any provider adapter. -/
theorem C4_no_changes_short_circuit (env : Env) (w : World) (fs : FS)
    (h : (get_py_diff w.nameOnlyCmd w.diffCmd).1 = []) :
    (main env w fs).result = noChangesMsg ∧
    (main env w fs).fsOut.artifact = some noChangesMsg ∧
    (main env w fs).promptBuilt = false ∧
    (main env w fs).openaiInvoked = false ∧
    (main env w fs).geminiInvoked = false := by
  simp [main, h, write_result_sets_artifact]

/-- Witness for C4 at a failing file-listing command. -/
theorem C4_no_changes_short_circuit_witness :
    (main envNoKeys worldNoFiles fsEmpty).result = noChangesMsg ∧
    (main envNoKeys worldNoFiles fsEmpty).fsOut.artifact = some noChangesMsg ∧
    (main envNoKeys worldNoFiles fsEmpty).promptBuilt = false ∧
    (main envNoKeys worldNoFiles fsEmpty).openaiInvoked = false ∧
    (main envNoKeys worldNoFiles fsEmpty).geminiInvoked = false :=
  C4_no_changes_short_circuit envNoKeys worldNoFiles fsEmpty (by decide)

/-- Claim C6: for every environment, every command outcome and every provider
behaviour, `main` returns exit code 0 and writes some result text to the
artifact file; it propagates no exception, being a total function by
construction. -/
theorem C6_always_exit_zero (env : Env) (w : World) (fs : FS) :
    (main env w fs).exitCode = 0 ∧
    (main env w fs).fsOut.artifact = some (main env w fs).result := by
  by_cases h : (get_py_diff w.nameOnlyCmd w.diffCmd).1 = [] <;>
    simp [main, h, write_result_sets_artifact]

end AiReview
